import Mathlib

/-!
Shallow embedding of the `business` package of quiver-london/go-revolut
(files `exchange.go` — given unnamed — and `business/1.0/oauth.go`),
together with proofs about its operations.

Modelling conventions:
* Go `float64` amounts are modelled as exact decimals `Dec` (an integer
  mantissa over a power-of-ten denominator); `fmt.Sprintf "%0.2f"` is
  modelled as rounding to cents (ties to even) followed by fixed two-digit
  rendering.
* Go `error` values are modelled by their message `String`; a function
  returning `(*T, error)` becomes `Except String T`.
* The HTTP collaborator `request.New` (package
  `business/1.0/request`, not part of the given sources) is modelled as an
  explicit transport argument `Request.Config → TransportResult`; each
  operation also returns the list of configs it handed to the transport,
  so "no network call" is the empty trace.
* `encoding/json` marshalling/unmarshalling is modelled by an explicit
  JSON value type `Jval`, a parser, and per-struct field folds mirroring
  the struct tags in the source.
-/

/-! ### Character/string utilities (kernel-computable replacements) -/

/-- Byte-wise (code-point) strict ordering on char lists, as Go compares
map keys when `url.Values.Encode` sorts them. -/
def charListLt : List Char → List Char → Bool
  | [], [] => false
  | [], _ :: _ => true
  | _ :: _, [] => false
  | a :: as, b :: bs =>
    if a.toNat < b.toNat then true
    else if b.toNat < a.toNat then false
    else charListLt as bs

/-- String ordering used for sorting query keys. -/
def strLt (a b : String) : Bool := charListLt a.data b.data

/-- Does the second list start with the first? -/
def listStarts : List Char → List Char → Bool
  | [], _ => true
  | _ :: _, [] => false
  | p :: ps, c :: cs => p == c && listStarts ps cs

/-- Does the second list contain the first as a contiguous sublist? -/
def listHasSub (pat : List Char) : List Char → Bool
  | [] => listStarts pat []
  | c :: cs => listStarts pat (c :: cs) || listHasSub pat cs

/-- Substring test on strings. -/
def strHasSub (pat s : String) : Bool := listHasSub pat.data s.data

/-- UTF-8 encoding of one character, as Go strings are byte sequences. -/
def utf8Bytes (c : Char) : List Nat :=
  let n := c.toNat
  if n < 0x80 then [n]
  else if n < 0x800 then
    [0xC0 ||| (n >>> 6), 0x80 ||| (n &&& 0x3F)]
  else if n < 0x10000 then
    [0xE0 ||| (n >>> 12), 0x80 ||| ((n >>> 6) &&& 0x3F), 0x80 ||| (n &&& 0x3F)]
  else
    [0xF0 ||| (n >>> 18), 0x80 ||| ((n >>> 12) &&& 0x3F),
     0x80 ||| ((n >>> 6) &&& 0x3F), 0x80 ||| (n &&& 0x3F)]

/-- Uppercase hexadecimal digit, as Go's `url.QueryEscape` emits. -/
def hexDigitChar (n : Nat) : Char :=
  if n < 10 then Char.ofNat (48 + n) else Char.ofNat (55 + n)

/-- Percent-escape of one byte. -/
def pctByte (b : Nat) : List Char :=
  ['%', hexDigitChar (b / 16), hexDigitChar (b % 16)]

/-- Characters Go's `url.QueryEscape` leaves unescaped. -/
def isUnreservedQueryChar (c : Char) : Bool :=
  c.isAlpha || c.isDigit || c == '-' || c == '_' || c == '.' || c == '~'

/-- Model of Go `url.QueryEscape`: unreserved characters kept, space
becomes `+`, every other byte percent-encoded. -/
def queryEscape (s : String) : String :=
  String.mk (s.data.flatMap fun c =>
    if isUnreservedQueryChar c then [c]
    else if c == ' ' then ['+']
    else (utf8Bytes c).flatMap pctByte)

/-- Insert one key/value pair into a key-sorted list (stable). -/
def insertByKey (x : String × String) : List (String × String) → List (String × String)
  | [] => [x]
  | y :: ys => if strLt y.1 x.1 then y :: insertByKey x ys else x :: y :: ys

/-- Sort key/value pairs by key, as `url.Values.Encode` does. -/
def sortByKey (ps : List (String × String)) : List (String × String) :=
  ps.foldr insertByKey []

/-- Model of Go `url.Values.Encode`: keys sorted, each pair escaped and
rendered `k=v`, pairs joined with `&`. -/
def encodeQuery (ps : List (String × String)) : String :=
  String.intercalate "&"
    ((sortByKey ps).map fun kv => queryEscape kv.1 ++ "=" ++ queryEscape kv.2)

/-! ### Exact decimals standing for Go `float64` amounts -/

/-- An exact decimal number `mantissa / 10 ^ exponent`, the model of the
`float64` amounts appearing in requests and responses. -/
structure Dec where
  mantissa : Int
  exponent : Nat
deriving DecidableEq, Repr

/-- The decimal of an integer. -/
def Dec.ofInt (n : Int) : Dec := ⟨n, 0⟩

instance : OfNat Dec n := ⟨Dec.ofInt n⟩

/-- The integer value of a decimal, when it is integral. -/
def Dec.toInt? (d : Dec) : Option Int :=
  let P : Int := (10 : Int) ^ d.exponent
  if d.mantissa % P = 0 then some (d.mantissa / P) else none

/-- The number of cents of a decimal, rounded half to even: the model of
the rounding `fmt.Sprintf "%0.2f"` performs. -/
def roundCents (d : Dec) : Int :=
  let P : Int := (10 : Int) ^ d.exponent
  let n : Int := d.mantissa * 100
  let q : Int := n / P
  let r : Int := n % P
  if 2 * r < P then q
  else if P < 2 * r then q + 1
  else if q % 2 = 0 then q else q + 1

/-- Render a natural number below 100 with exactly two digits. -/
def pad2 (r : Nat) : String :=
  (if r < 10 then "0" else "") ++ toString r

/-- Render a nonnegative number of cents as `units.cc`. -/
def fmtCents (c : Nat) : String :=
  toString (c / 100) ++ "." ++ pad2 (c % 100)

/-- Model of `fmt.Sprintf "%0.2f"`: fixed-point rendering with exactly two
digits after the decimal point. -/
def fmtTwoDec (d : Dec) : String :=
  let c := roundCents d
  if c < 0 then "-" ++ fmtCents (-c).toNat else fmtCents c.toNat

/-! ### JSON values, rendering and parsing (model of `encoding/json`) -/

/-- A JSON value. Object fields are kept in marshal order. -/
inductive Jval where
  | null
  | bool (b : Bool)
  | num (d : Dec)
  | str (s : String)
  | arr (elems : List Jval)
  | obj (fields : List (String × Jval))

/-- Field lookup in a JSON object; `none` on non-objects. -/
def Jval.lookupField (j : Jval) (k : String) : Option Jval :=
  match j with
  | .obj fields => fields.lookup k
  | _ => none

/-- Skip JSON whitespace. -/
def skipWs : List Char → List Char
  | c :: cs =>
    if c == ' ' || c == '\t' || c == '\n' || c == '\r' then skipWs cs else c :: cs
  | [] => []

/-- Hex digit value of a character, if any. -/
def hexVal (c : Char) : Option Nat :=
  if '0' ≤ c && c ≤ '9' then some (c.toNat - 48)
  else if 'a' ≤ c && c ≤ 'f' then some (c.toNat - 87)
  else if 'A' ≤ c && c ≤ 'F' then some (c.toNat - 55)
  else none

/-- Parse the body of a JSON string after the opening quote; returns the
decoded characters and the input after the closing quote. -/
def parseStringBody : Nat → List Char → Option (List Char × List Char)
  | 0, _ => none
  | _ + 1, [] => none
  | fuel + 1, c :: cs =>
    if c == '"' then some ([], cs)
    else if c == '\\' then
      match cs with
      | [] => none
      | e :: cs' =>
        let cont (ch : Char) (rest : List Char) : Option (List Char × List Char) :=
          match parseStringBody fuel rest with
          | some (tail, rem) => some (ch :: tail, rem)
          | none => none
        if e == '"' then cont '"' cs'
        else if e == '\\' then cont '\\' cs'
        else if e == '/' then cont '/' cs'
        else if e == 'n' then cont '\n' cs'
        else if e == 't' then cont '\t' cs'
        else if e == 'r' then cont '\r' cs'
        else if e == 'b' then cont (Char.ofNat 8) cs'
        else if e == 'f' then cont (Char.ofNat 12) cs'
        else if e == 'u' then
          match cs' with
          | h1 :: h2 :: h3 :: h4 :: cs'' =>
            match hexVal h1, hexVal h2, hexVal h3, hexVal h4 with
            | some v1, some v2, some v3, some v4 =>
              cont (Char.ofNat (((v1 * 16 + v2) * 16 + v3) * 16 + v4)) cs''
            | _, _, _, _ => none
          | _ => none
        else none
    else
      match parseStringBody fuel cs with
      | some (tail, rem) => some (c :: tail, rem)
      | none => none

/-- Split off leading decimal digits. -/
def takeDigits : List Char → (List Char × List Char)
  | [] => ([], [])
  | c :: cs =>
    if c.isDigit then
      let (ds, rest) := takeDigits cs
      (c :: ds, rest)
    else ([], c :: cs)

/-- Numeric value of a digit list. -/
def digitsToNat (ds : List Char) : Nat :=
  ds.foldl (fun a c => a * 10 + (c.toNat - 48)) 0

/-- Parse a JSON number (integer or fraction; exponents are not produced
by the modelled service) into an exact decimal. -/
def parseNumber (cs : List Char) : Option (Dec × List Char) :=
  let (neg, cs1) :=
    match cs with
    | '-' :: rest => (true, rest)
    | _ => (false, cs)
  let (intDs, cs2) := takeDigits cs1
  if intDs.isEmpty then none
  else
    let (fracDs, cs3) :=
      match cs2 with
      | '.' :: rest =>
        let (ds, r) := takeDigits rest
        (ds, r)
      | _ => ([], cs2)
    if cs2 ≠ [] ∧ fracDs.isEmpty ∧ cs3 ≠ cs2 then none
    else
      let mag : Nat := digitsToNat intDs * 10 ^ fracDs.length + digitsToNat fracDs
      let m : Int := if neg then -(mag : Int) else (mag : Int)
      some (⟨m, fracDs.length⟩, cs3)

mutual

/-- Parse one JSON value. -/
def parseVal : Nat → List Char → Option (Jval × List Char)
  | 0, _ => none
  | fuel + 1, cs =>
    match skipWs cs with
    | [] => none
    | c :: rest =>
      if c == '"' then
        match parseStringBody (rest.length + 1) rest with
        | some (content, rem) => some (.str (String.mk content), rem)
        | none => none
      else if c == '\x7b' then
        match skipWs rest with
        | '\x7d' :: rem => some (.obj [], rem)
        | other => parseFields fuel other
      else if c == '[' then
        match skipWs rest with
        | ']' :: rem => some (.arr [], rem)
        | other => parseElems fuel other
      else if listStarts ['t', 'r', 'u', 'e'] (c :: rest) then
        some (.bool true, (c :: rest).drop 4)
      else if listStarts ['f', 'a', 'l', 's', 'e'] (c :: rest) then
        some (.bool false, (c :: rest).drop 5)
      else if listStarts ['n', 'u', 'l', 'l'] (c :: rest) then
        some (.null, (c :: rest).drop 4)
      else
        match parseNumber (c :: rest) with
        | some (d, rem) => some (.num d, rem)
        | none => none

/-- Parse the fields of a JSON object, positioned at the first key. -/
def parseFields : Nat → List Char → Option (Jval × List Char)
  | 0, _ => none
  | fuel + 1, cs =>
    match skipWs cs with
    | '"' :: rest =>
      match parseStringBody (rest.length + 1) rest with
      | some (key, afterKey) =>
        match skipWs afterKey with
        | ':' :: afterColon =>
          match parseVal fuel afterColon with
          | some (v, afterVal) =>
            match skipWs afterVal with
            | ',' :: more =>
              match parseFields fuel more with
              | some (.obj fields, rem) => some (.obj ((String.mk key, v) :: fields), rem)
              | _ => none
            | '\x7d' :: rem => some (.obj [(String.mk key, v)], rem)
            | _ => none
          | none => none
        | _ => none
      | none => none
    | _ => none

/-- Parse the elements of a JSON array, positioned at the first element. -/
def parseElems : Nat → List Char → Option (Jval × List Char)
  | 0, _ => none
  | fuel + 1, cs =>
    match parseVal fuel cs with
    | some (v, afterVal) =>
      match skipWs afterVal with
      | ',' :: more =>
        match parseElems fuel more with
        | some (.arr elems, rem) => some (.arr (v :: elems), rem)
        | _ => none
      | ']' :: rem => some (.arr [v], rem)
      | _ => none
    | none => none

end

/-- Parse a complete JSON document; trailing non-whitespace is an error,
as in `json.Unmarshal`. -/
def parseJson (s : String) : Option Jval :=
  match parseVal (2 * s.data.length + 2) s.data with
  | some (v, rest) => if skipWs rest == [] then some v else none
  | none => none

/-! ### The transport collaborator (package `business/1.0/request`) -/

/-- Result of one transport call: a transport-level error, or the raw
response body together with its HTTP status code. -/
abbrev TransportResult := Except String (String × Nat)

/-- Modelled from the spec: the `Body interface\x7b\x7d` field of
`request.Config` from the absent `business/1.0/request` package — `nil`,
`url.Values` form fields, or a value the transport JSON-marshals per the
declared content type. -/
inductive ReqBody where
  | empty
  | form (fields : List (String × String))
  | json (v : Jval)

/-- Form-field lookup on a request body. -/
def ReqBody.formLookup : ReqBody → String → Option String
  | .form fields, k => fields.lookup k
  | _, _ => none

/-- The form-field names of a request body, in order. -/
def ReqBody.formKeys : ReqBody → List String
  | .form fields => fields.map Prod.fst
  | _ => []

/-- Modelled from the spec: `request.ContentType_APPLICATION_JSON` of the
absent `business/1.0/request` package. -/
def ContentType_APPLICATION_JSON : String := "application/json"

/-- Modelled from the spec: `request.ContentType_APPLICATION_FORM` of the
absent `business/1.0/request` package. -/
def ContentType_APPLICATION_FORM : String := "application/x-www-form-urlencoded"

/-- Modelled from the spec: `request.Config` of the absent
`business/1.0/request` package — the argument record of the transport
collaborator: method, URL, bearer token, sandbox flag, body and content
type.  Fields the source leaves unset are the Go zero values. -/
structure Request.Config where
  Method : String
  Url : String
  AccessToken : String
  Sandbox : Bool
  Body : ReqBody
  ContentType : String

/-! ### Exchange service (`exchange.go`) -/

/-- Go `ExchangeService`: access token, sandbox flag, and a stored error set
at construction time (the "poisoned instance" field). -/
structure ExchangeService where
  accessToken : String
  sandbox : Bool
  err : Option String

/-- Go `ExchangeRateReq`: source/target currency and the exchange amount
(`float64`, zero value when the caller leaves it unset). -/
structure ExchangeRateReq where
  From : String
  To : String
  Amount : Dec

/-- An opaque timestamp string standing for Go `time.Time`
(`encoding/json` parses it from an RFC3339 string; the format check is
elided, no claim concerns it). -/
structure GoTime where
  rfc3339 : String
deriving DecidableEq, Repr

/-- Go `Amount`: a monetary amount with its currency.  The source names the
field `Amount` like the struct itself, which Lean cannot express; the
prime is the only deviation. -/
structure Amount where
  Amount' : Dec
  Currency : String
deriving DecidableEq, Repr

/-- Go `ExchangeRateResp`: the decoded rate quote. -/
structure ExchangeRateResp where
  From : Amount
  To : Amount
  Rate : Dec
  Fee : Amount
  RateDate : GoTime
deriving DecidableEq, Repr

/-- Go `ExchangeAmount`: account, amount (JSON tag `amount,omitempty`) and
currency. -/
structure ExchangeAmount where
  AccountId : String
  Amount : Dec
  Currency : String
deriving DecidableEq, Repr

/-- Go `ExchangeReq`: the exchange order request. -/
structure ExchangeReq where
  From : ExchangeAmount
  To : ExchangeAmount
  Reference : String
  RequestId : String
deriving DecidableEq, Repr

/-- Go `ExchangeResp`: the exchange order result. -/
structure ExchangeResp where
  Id : String
  State : String
  ReasonCode : String
  CreatedAt : GoTime
  CompletedAt : GoTime
deriving DecidableEq, Repr

/-- Shared response handling of every operation in the source: a
transport error is returned as-is, a non-200 status becomes an error
whose message is the raw response body string, a 200 body is decoded. -/
def handleResponse {α : Type} (decode : String → Except String α) :
    TransportResult → Except String α
  | .error e => .error e
  | .ok (resp, statusCode) =>
    if statusCode ≠ 200 then .error resp else decode resp

/-- The zero value of `Amount`. -/
def Amount.zero : Amount := ⟨⟨0, 0⟩, ""⟩

/-- One `json.Unmarshal` step for a field of `Amount` (tags `amount`,
`currency`); a JSON `null` leaves the target unchanged, unknown keys are
ignored. -/
def setAmountField (r : Amount) : String × Jval → Except String Amount
  | (_, .null) => .ok r
  | ("amount", .num d) => .ok { r with Amount' := d }
  | ("amount", _) => .error "json: cannot unmarshal into field amount"
  | ("currency", .str s) => .ok { r with Currency := s }
  | ("currency", _) => .error "json: cannot unmarshal into field currency"
  | _ => .ok r

/-- Go `json.Unmarshal` of a JSON value into `Amount`. -/
def decodeAmountJ : Jval → Except String Amount
  | .null => .ok Amount.zero
  | .obj fields => List.foldlM setAmountField Amount.zero fields
  | _ => .error "json: cannot unmarshal into Amount"

/-- The zero value of `ExchangeRateResp`. -/
def ExchangeRateResp.zero : ExchangeRateResp :=
  ⟨Amount.zero, Amount.zero, ⟨0, 0⟩, Amount.zero, ⟨""⟩⟩

/-- One `json.Unmarshal` step for a field of `ExchangeRateResp` (tags
`from`, `to`, `rate`, `fee`, `rate_date`). -/
def setExchangeRateField (r : ExchangeRateResp) :
    String × Jval → Except String ExchangeRateResp
  | (_, .null) => .ok r
  | ("from", v) => (decodeAmountJ v).map fun a => { r with From := a }
  | ("to", v) => (decodeAmountJ v).map fun a => { r with To := a }
  | ("rate", .num d) => .ok { r with Rate := d }
  | ("rate", _) => .error "json: cannot unmarshal into field rate"
  | ("fee", v) => (decodeAmountJ v).map fun a => { r with Fee := a }
  | ("rate_date", .str s) => .ok { r with RateDate := ⟨s⟩ }
  | ("rate_date", _) => .error "json: cannot unmarshal into field rate_date"
  | _ => .ok r

/-- Go `json.Unmarshal` of the response body into `ExchangeRateResp`. -/
def decodeExchangeRateResp (s : String) : Except String ExchangeRateResp :=
  match parseJson s with
  | none => .error "invalid character in JSON"
  | some .null => .ok ExchangeRateResp.zero
  | some (.obj fields) => List.foldlM setExchangeRateField ExchangeRateResp.zero fields
  | some _ => .error "json: cannot unmarshal into ExchangeRateResp"

/-- The zero value of `ExchangeResp`. -/
def ExchangeResp.zero : ExchangeResp := ⟨"", "", "", ⟨""⟩, ⟨""⟩⟩

/-- One `json.Unmarshal` step for a field of `ExchangeResp` (tags `id`,
`state`, `reason_code`, `created_at`, `completed_at`). -/
def setExchangeField (r : ExchangeResp) : String × Jval → Except String ExchangeResp
  | (_, .null) => .ok r
  | ("id", .str s) => .ok { r with Id := s }
  | ("id", _) => .error "json: cannot unmarshal into field id"
  | ("state", .str s) => .ok { r with State := s }
  | ("state", _) => .error "json: cannot unmarshal into field state"
  | ("reason_code", .str s) => .ok { r with ReasonCode := s }
  | ("reason_code", _) => .error "json: cannot unmarshal into field reason_code"
  | ("created_at", .str s) => .ok { r with CreatedAt := ⟨s⟩ }
  | ("created_at", _) => .error "json: cannot unmarshal into field created_at"
  | ("completed_at", .str s) => .ok { r with CompletedAt := ⟨s⟩ }
  | ("completed_at", _) => .error "json: cannot unmarshal into field completed_at"
  | _ => .ok r

/-- Go `json.Unmarshal` of the response body into `ExchangeResp`. -/
def decodeExchangeResp (s : String) : Except String ExchangeResp :=
  match parseJson s with
  | none => .error "invalid character in JSON"
  | some .null => .ok ExchangeResp.zero
  | some (.obj fields) => List.foldlM setExchangeField ExchangeResp.zero fields
  | some _ => .error "json: cannot unmarshal into ExchangeResp"

/-- The query parameters `Rate` adds, in source order: `from`, `to`, and
the amount rendered with `fmt.Sprintf "%0.2f"`. -/
def rateParams (req : ExchangeRateReq) : List (String × String) :=
  [("from", req.From), ("to", req.To), ("amount", fmtTwoDec req.Amount)]

/-- The `request.Config` built by `Rate`.  `Body` and `ContentType` are
not set in the source (Go zero values). -/
def rateConfig (e : ExchangeService) (req : ExchangeRateReq) : Request.Config :=
  { Method := "GET"
    Url := "https://b2b.revolut.com/api/1.0/rate?" ++ encodeQuery (rateParams req)
    AccessToken := e.accessToken
    Sandbox := e.sandbox
    Body := .empty
    ContentType := "" }

/-- Go `ExchangeService.Rate`, instrumented with the list of configs handed
to the transport: a stored error short-circuits with an empty trace. -/
def Rate (e : ExchangeService) (req : ExchangeRateReq)
    (transport : Request.Config → TransportResult) :
    Except String ExchangeRateResp × List Request.Config :=
  match e.err with
  | some msg => (.error msg, [])
  | none =>
    (handleResponse decodeExchangeRateResp (transport (rateConfig e req)),
     [rateConfig e req])

/-- Go `json.Marshal` of `ExchangeAmount`: the `amount` field carries
`omitempty`, so a zero amount is omitted from the object. -/
def encodeExchangeAmount (ea : ExchangeAmount) : Jval :=
  .obj ([("account_id", .str ea.AccountId)]
    ++ (if ea.Amount.mantissa = 0 then [] else [("amount", .num ea.Amount)])
    ++ [("currency", .str ea.Currency)])

/-- Go `json.Marshal` of `ExchangeReq`, fields in declared order. -/
def encodeExchangeReq (req : ExchangeReq) : Jval :=
  .obj [("from", encodeExchangeAmount req.From),
        ("to", encodeExchangeAmount req.To),
        ("reference", .str req.Reference),
        ("request_id", .str req.RequestId)]

/-- The `request.Config` built by `Exchange`; the body is the order
request, JSON-marshalled per the declared content type. -/
def exchangeConfig (e : ExchangeService) (req : ExchangeReq) : Request.Config :=
  { Method := "POST"
    Url := "https://b2b.revolut.com/api/1.0/exchange"
    AccessToken := e.accessToken
    Sandbox := e.sandbox
    Body := .json (encodeExchangeReq req)
    ContentType := ContentType_APPLICATION_JSON }

/-- Go `ExchangeService.Exchange`, instrumented with the list of configs
handed to the transport. -/
def Exchange (e : ExchangeService) (req : ExchangeReq)
    (transport : Request.Config → TransportResult) :
    Except String ExchangeResp × List Request.Config :=
  match e.err with
  | some msg => (.error msg, [])
  | none =>
    (handleResponse decodeExchangeResp (transport (exchangeConfig e req)),
     [exchangeConfig e req])

/-! ### OAuth service (`oauth.go`) -/

/-- An RSA private key: modulus, public exponent and private exponent
(textbook RSA stands for the `crypto/rsa` key). -/
structure RSAPrivateKey where
  n : Nat
  e : Nat
  d : Nat
deriving DecidableEq, Repr

/-- Modular exponentiation `a ^ b % n`, kernel-computable. -/
def powMod (a : Nat) : Nat → Nat → Nat
  | 0, n => 1 % n
  | b + 1, n => (a % n) * powMod a b n % n

/-- Textbook RSA signing: the encoded message to the private exponent,
modulo the key. -/
def rsaSign (key : RSAPrivateKey) (m : Nat) : Nat := powMod m key.d key.n

/-- Textbook RSA verification with the public key `(n, e)`. -/
def rsaVerify (n e m sig : Nat) : Bool := powMod sig e n == m % n

/-- Go `OAuthService`: client identity, signing key, issuer and sandbox
flag (`NewOAuth` stores its four arguments verbatim). -/
structure OAuthService where
  clientId : String
  privateKey : RSAPrivateKey
  issuer : String
  sandbox : Bool

/-- Go `NewOAuth`, the `OAuthService` constructor. -/
def NewOAuth (clientId : String) (privateKey : RSAPrivateKey)
    (issuer : String) (sandbox : Bool) : OAuthService :=
  ⟨clientId, privateKey, issuer, sandbox⟩

/-- The fixed `client_assertion_type` URN. -/
def clientAssertionType : String :=
  "urn:ietf:params:oauth:client-assertion-type:jwt-bearer"

/-- The fixed JWT audience. -/
def aud : String := "https://revolut.com"

/-- The grant type for the authorisation-code exchange. -/
def grant_type_authorization_code : String := "authorization_code"

/-- The grant type for the token refresh. -/
def grant_type_refresh_token : String := "refresh_token"

/-- A JWT header: signing algorithm and token type. -/
structure JWTHeader where
  alg : String
  typ : String
deriving DecidableEq, Repr

/-- A signed JWT: header, claim set (in marshal order) and RSA
signature over the serialized header and claims. -/
structure JWT where
  header : JWTHeader
  claims : List (String × String)
  signature : Nat
deriving DecidableEq, Repr

/-- JSON string escaping for the JWT segments. -/
def jsonEscapeChar (c : Char) : List Char :=
  if c == '"' then ['\\', '"'] else if c == '\\' then ['\\', '\\'] else [c]

/-- A JSON string literal. -/
def jsonQuote (s : String) : String :=
  "\"" ++ String.mk (s.data.flatMap jsonEscapeChar) ++ "\""

/-- A JSON object all of whose fields are strings, rendered in the given
order (Go marshals `jwt.MapClaims` with its keys sorted). -/
def jsonStrObj (fields : List (String × String)) : String :=
  "\x7b"
    ++ String.intercalate "," (fields.map fun kv => jsonQuote kv.1 ++ ":" ++ jsonQuote kv.2)
    ++ "\x7d"

/-- The signing input of a JWT: serialized header and claims joined by a
dot (base64url encoding of the two segments is a bijection on the bytes
and is elided from the model). -/
def signingInput (header : JWTHeader) (claims : List (String × String)) : String :=
  jsonStrObj [("alg", header.alg), ("typ", header.typ)] ++ "." ++ jsonStrObj claims

/-- Injective numeric encoding of the signed bytes, standing for the
PKCS#1 v1.5 SHA-256 digest encoding the `jwt-go` library applies before
RSA. -/
def msgEncode (s : String) : Nat :=
  s.data.foldl (fun a c => a * 1114112 + c.toNat) 0

/-- The compact serialization of a signed JWT, the string
`token.SignedString` returns. -/
def serializeJWT (t : JWT) : String :=
  signingInput t.header t.claims ++ "." ++ toString t.signature

/-- Go `generateClientAssertion` (oauth.go lines 161-175): a JWT with
header algorithm RS256 and exactly the claims iss, aud, sub (in the
sorted order `encoding/json` gives a Go map), signed with the held RSA
private key.  Signing in the model is total, so the source's error
return for an unusable key has no counterpart. -/
def generateClientAssertion (oa : OAuthService) : JWT :=
  let header : JWTHeader := ⟨"RS256", "JWT"⟩
  let claims : List (String × String) :=
    [("aud", aud), ("iss", oa.issuer), ("sub", oa.clientId)]
  ⟨header, claims, rsaSign oa.privateKey (msgEncode (signingInput header claims))⟩

/-- Go `OAuthResp`: the decoded token response. -/
structure OAuthResp where
  AccessToken : String
  TokenType : String
  ExpiresIn : Int
  RefreshToken : String
deriving DecidableEq, Repr

/-- The zero value of `OAuthResp`. -/
def OAuthResp.zero : OAuthResp := ⟨"", "", 0, ""⟩

/-- One `json.Unmarshal` step for a field of `OAuthResp` (tags
`access_token`, `token_type`, `expires_in` as `int32`,
`refresh_token`). -/
def setOAuthField (r : OAuthResp) : String × Jval → Except String OAuthResp
  | (_, .null) => .ok r
  | ("access_token", .str s) => .ok { r with AccessToken := s }
  | ("access_token", _) => .error "json: cannot unmarshal into field access_token"
  | ("token_type", .str s) => .ok { r with TokenType := s }
  | ("token_type", _) => .error "json: cannot unmarshal into field token_type"
  | ("expires_in", .num d) =>
    match d.toInt? with
    | some v =>
      if -2147483648 ≤ v ∧ v < 2147483648 then .ok { r with ExpiresIn := v }
      else .error "json: cannot unmarshal number into field expires_in of type int32"
    | none => .error "json: cannot unmarshal number into field expires_in of type int32"
  | ("expires_in", _) => .error "json: cannot unmarshal into field expires_in"
  | ("refresh_token", .str s) => .ok { r with RefreshToken := s }
  | ("refresh_token", _) => .error "json: cannot unmarshal into field refresh_token"
  | _ => .ok r

/-- Go `json.Unmarshal` of the response body into `OAuthResp`. -/
def decodeOAuthResp (s : String) : Except String OAuthResp :=
  match parseJson s with
  | none => .error "invalid character in JSON"
  | some .null => .ok OAuthResp.zero
  | some (.obj fields) => List.foldlM setOAuthField OAuthResp.zero fields
  | some _ => .error "json: cannot unmarshal into OAuthResp"

/-- The `request.Config` built by `ExchangeAuthorisationCode` (oauth.go
lines 65-82): form body with the grant type, the code, the client id,
the fixed assertion type and a freshly generated client assertion. -/
def exchangeAuthorisationCodeConfig (oa : OAuthService) (code : String) : Request.Config :=
  { Method := "POST"
    Url := "https://b2b.revolut.com/api/1.0/auth/token"
    AccessToken := ""
    Sandbox := oa.sandbox
    Body := .form
      [("grant_type", grant_type_authorization_code),
       ("code", code),
       ("client_id", oa.clientId),
       ("client_assertion_type", clientAssertionType),
       ("client_assertion", serializeJWT (generateClientAssertion oa))]
    ContentType := ContentType_APPLICATION_FORM }

/-- Go `OAuthService.ExchangeAuthorisationCode`, instrumented with the list
of configs handed to the transport. -/
def ExchangeAuthorisationCode (oa : OAuthService) (code : String)
    (transport : Request.Config → TransportResult) :
    Except String OAuthResp × List Request.Config :=
  (handleResponse decodeOAuthResp (transport (exchangeAuthorisationCodeConfig oa code)),
   [exchangeAuthorisationCodeConfig oa code])

/-- The `request.Config` built by `RefreshAccessToken` (oauth.go lines
108-124): the same token endpoint with `grant_type=refresh_token` and
the refresh token in place of the code. -/
def refreshAccessTokenConfig (oa : OAuthService) (refreshToken : String) : Request.Config :=
  { Method := "POST"
    Url := "https://b2b.revolut.com/api/1.0/auth/token"
    AccessToken := ""
    Sandbox := oa.sandbox
    Body := .form
      [("grant_type", grant_type_refresh_token),
       ("refresh_token", refreshToken),
       ("client_id", oa.clientId),
       ("client_assertion_type", clientAssertionType),
       ("client_assertion", serializeJWT (generateClientAssertion oa))]
    ContentType := ContentType_APPLICATION_FORM }

/-- Go `OAuthService.RefreshAccessToken`, instrumented with the list of
configs handed to the transport. -/
def RefreshAccessToken (oa : OAuthService) (refreshToken : String)
    (transport : Request.Config → TransportResult) :
    Except String OAuthResp × List Request.Config :=
  (handleResponse decodeOAuthResp (transport (refreshAccessTokenConfig oa refreshToken)),
   [refreshAccessTokenConfig oa refreshToken])

/-- Go `AuthorizationCodeResp`: account id and granted code (no JSON tags
in the source, so `json.Unmarshal` matches the Go field names case
insensitively). -/
structure AuthorizationCodeResp where
  Id : String
  Code : String
deriving DecidableEq, Repr

/-- ASCII lower-casing for Go's case-insensitive field match. -/
def lowerAscii (c : Char) : Char :=
  if 'A' ≤ c && c ≤ 'Z' then Char.ofNat (c.toNat + 32) else c

/-- Does a JSON key match an untagged Go field name? -/
def keyMatches (k field : String) : Bool :=
  k == field || k.data.map lowerAscii == field.data.map lowerAscii

/-- One `json.Unmarshal` step for a field of `AuthorizationCodeResp`. -/
def setAuthCodeField (r : AuthorizationCodeResp) :
    String × Jval → Except String AuthorizationCodeResp
  | (_, .null) => .ok r
  | (k, .str s) =>
    if keyMatches k "Id" then .ok { r with Id := s }
    else if keyMatches k "Code" then .ok { r with Code := s }
    else .ok r
  | (k, _) =>
    if keyMatches k "Id" || keyMatches k "Code" then
      .error "json: cannot unmarshal into AuthorizationCodeResp"
    else .ok r

/-- Go `json.Unmarshal` of one element of the `[]*AuthorizationCodeResp`
slice; a JSON `null` element is a nil pointer. -/
def decodeAuthorizationCodeElem : Jval → Except String (Option AuthorizationCodeResp)
  | .null => .ok none
  | .obj fields => (List.foldlM setAuthCodeField ⟨"", ""⟩ fields).map some
  | _ => .error "json: cannot unmarshal into AuthorizationCodeResp"

/-- Go `json.Unmarshal` of the response body into the slice of
authorization-code responses. -/
def decodeAuthorizationCodeList (s : String) :
    Except String (List (Option AuthorizationCodeResp)) :=
  match parseJson s with
  | none => .error "invalid character in JSON"
  | some .null => .ok []
  | some (.arr elems) => elems.mapM decodeAuthorizationCodeElem
  | some _ => .error "json: cannot unmarshal into slice"

/-- The `request.Config` built by `GetAuthorisationCode` (oauth.go lines
140-144).  The URL is built with
`fmt.Sprintf "...app-confirm?client_id=%s&redirect_uri%s"` — the `=`
after `redirect_uri` is missing in the source, and no `Sandbox`,
`AccessToken` or `ContentType` field is set (Go zero values). -/
def getAuthorisationCodeConfig (clientId redirectUri : String) : Request.Config :=
  { Method := "GET"
    Url := "https://business.revolut.com/app-confirm?client_id=" ++ clientId
      ++ "&redirect_uri" ++ redirectUri
    AccessToken := ""
    Sandbox := false
    Body := .empty
    ContentType := "" }

/-- Go `OAuthService.GetAuthorisationCode`, instrumented with the list of
configs handed to the transport; the receiver is unused in the source. -/
def GetAuthorisationCode (_oa : OAuthService) (clientId redirectUri : String)
    (transport : Request.Config → TransportResult) :
    Except String (List (Option AuthorizationCodeResp)) × List Request.Config :=
  (handleResponse decodeAuthorizationCodeList
    (transport (getAuthorisationCodeConfig clientId redirectUri)),
   [getAuthorisationCodeConfig clientId redirectUri])

/-! ### Helper lemmas -/

/-- The function `powMod` computes modular exponentiation. -/
theorem powMod_eq (a b n : ℕ) : powMod a b n = a ^ b % n := by
  induction b with
  | zero => rfl
  | succ b ih =>
    show (a % n) * powMod a b n % n = a ^ (b + 1) % n
    rw [ih, ← Nat.mul_mod, pow_succ, mul_comm]

/-- In `ZMod p`, raising to a multiple of `p - 1` plus one is the
identity (Fermat). -/
theorem zmod_pow_cycle (p : ℕ) (hp : p.Prime) (j : ℕ) (x : ZMod p) :
    x ^ (j * (p - 1) + 1) = x := by
  haveI : Fact p.Prime := ⟨hp⟩
  rcases eq_or_ne x 0 with rfl | hx
  · exact zero_pow (Nat.succ_ne_zero _)
  · rw [pow_add, pow_one, mul_comm j (p - 1), pow_mul,
      ZMod.pow_card_sub_one_eq_one hx, one_pow, one_mul]

/-- The same cycle at the `Nat` level. -/
theorem pow_cycle_modeq (p : ℕ) (hp : p.Prime) (j m : ℕ) :
    m ^ (j * (p - 1) + 1) ≡ m [MOD p] := by
  have h := zmod_pow_cycle p hp j (m : ZMod p)
  rwa [← Nat.cast_pow, ZMod.natCast_eq_natCast_iff] at h

/-- RSA round trip: for a valid key pair over distinct primes, the
`e * d` power is the identity modulo `p * q`. -/
theorem rsa_roundtrip (p q e d : ℕ) (hp : p.Prime) (hq : q.Prime) (hne : p ≠ q)
    (hed : e * d ≡ 1 [MOD (p - 1) * (q - 1)]) (m : ℕ) :
    m ^ (e * d) ≡ m [MOD p * q] := by
  have hp2 := hp.two_le
  have hq2 := hq.two_le
  have hL : 2 ≤ (p - 1) * (q - 1) := by
    have h3 : 3 ≤ p ∨ 3 ≤ q := by omega
    rcases h3 with h | h
    · calc 2 = 2 * 1 := rfl
        _ ≤ (p - 1) * (q - 1) := Nat.mul_le_mul (by omega) (by omega)
    · calc 2 = 1 * 2 := rfl
        _ ≤ (p - 1) * (q - 1) := Nat.mul_le_mul (by omega) (by omega)
  have hmod : e * d % ((p - 1) * (q - 1)) = 1 := by
    have h := hed
    unfold Nat.ModEq at h
    rwa [Nat.mod_eq_of_lt (show 1 < (p - 1) * (q - 1) by omega)] at h
  have hex : ∃ k, e * d = (p - 1) * (q - 1) * k + 1 := by
    refine ⟨e * d / ((p - 1) * (q - 1)), ?_⟩
    conv_lhs => rw [← Nat.div_add_mod (e * d) ((p - 1) * (q - 1))]
    rw [hmod]
  obtain ⟨k, hk⟩ := hex
  have hmp : m ^ (e * d) ≡ m [MOD p] := by
    have hrw : e * d = k * (q - 1) * (p - 1) + 1 := by rw [hk]; ring
    rw [hrw]
    exact pow_cycle_modeq p hp _ m
  have hmq : m ^ (e * d) ≡ m [MOD q] := by
    have hrw : e * d = k * (p - 1) * (q - 1) + 1 := by rw [hk]; ring
    rw [hrw]
    exact pow_cycle_modeq q hq _ m
  have hco : Nat.Coprime p q := (Nat.coprime_primes hp hq).mpr hne
  exact (Nat.modEq_and_modEq_iff_modEq_mul hco).mp ⟨hmp, hmq⟩

/-- Verifying a textbook-RSA signature with the matching public key
succeeds for every message. -/
theorem rsaVerify_rsaSign (key : RSAPrivateKey) (p q : ℕ) (hp : p.Prime)
    (hq : q.Prime) (hne : p ≠ q) (hn : key.n = p * q)
    (hed : key.e * key.d ≡ 1 [MOD (p - 1) * (q - 1)]) (m : ℕ) :
    rsaVerify key.n key.e m (rsaSign key m) = true := by
  unfold rsaVerify rsaSign
  rw [powMod_eq, powMod_eq, ← Nat.pow_mod, ← pow_mul, beq_iff_eq, hn,
    mul_comm key.d key.e]
  exact rsa_roundtrip p q key.e key.d hp hq hne hed m

/-- The function `pad2` renders exactly two characters for every cent remainder. -/
theorem pad2_length : ∀ r < 100, (pad2 r).length = 2 := by decide

/-- A nonnegative decimal rounds to a nonnegative number of cents. -/
theorem roundCents_nonneg (d : Dec) (h : 0 ≤ d.mantissa) : 0 ≤ roundCents d := by
  simp only [roundCents]
  have hP : (0 : Int) < 10 ^ d.exponent := by positivity
  have hq : 0 ≤ d.mantissa * 100 / 10 ^ d.exponent :=
    Int.ediv_nonneg (mul_nonneg h (by norm_num)) hP.le
  split_ifs <;> omega

/-- For a nonnegative amount, the two-decimal rendering is an integer
part, a dot, and exactly two digit characters. -/
theorem fmtTwoDec_shape (d : Dec) (h : 0 ≤ d.mantissa) :
    ∃ (w r : ℕ), r < 100 ∧ (pad2 r).length = 2 ∧
      fmtTwoDec d = toString w ++ "." ++ pad2 r := by
  have hc := roundCents_nonneg d h
  refine ⟨(roundCents d).toNat / 100, (roundCents d).toNat % 100,
    Nat.mod_lt _ (by norm_num), pad2_length _ (Nat.mod_lt _ (by norm_num)), ?_⟩
  unfold fmtTwoDec fmtCents
  rw [if_neg (by omega)]

/-! ### Claims -/

/-- C1: for every `ExchangeService` whose stored error field is non-nil
and for every request argument, both `Rate` and `Exchange` immediately
return that stored error with no result and hand the transport zero
configs (no network call). -/
theorem C1_poisoned_short_circuit (e : ExchangeService) (msg : String)
    (h : e.err = some msg) (rateReq : ExchangeRateReq) (exReq : ExchangeReq)
    (transport : Request.Config → TransportResult) :
    Rate e rateReq transport = (.error msg, []) ∧
    Exchange e exReq transport = (.error msg, []) := by
  unfold Rate Exchange
  rw [h]
  exact ⟨rfl, rfl⟩

/-- Witness for C1 at a concrete poisoned service. -/
theorem C1_poisoned_short_circuit_witness :
    Rate ⟨"", false, some "bad token"⟩ ⟨"USD", "EUR", ⟨1, 0⟩⟩ (fun _ => .error "net")
      = (.error "bad token", []) ∧
    Exchange ⟨"", false, some "bad token"⟩
      ⟨⟨"a", ⟨1, 0⟩, "USD"⟩, ⟨"b", ⟨1, 0⟩, "EUR"⟩, "", ""⟩ (fun _ => .error "net")
      = (.error "bad token", []) :=
  C1_poisoned_short_circuit ⟨"", false, some "bad token"⟩ "bad token" rfl _ _ _

/-- C2: for each of the five operations, when the transport succeeds but
returns a status other than 200, the operation returns no result and an
error whose message is exactly the raw response body string. -/
theorem C2_non200_raw_body_error (resp : String) (status : Nat) (hs : status ≠ 200) :
    (∀ (e : ExchangeService) (req : ExchangeRateReq)
        (t : Request.Config → TransportResult), e.err = none →
        t (rateConfig e req) = .ok (resp, status) → (Rate e req t).1 = .error resp) ∧
    (∀ (e : ExchangeService) (req : ExchangeReq)
        (t : Request.Config → TransportResult), e.err = none →
        t (exchangeConfig e req) = .ok (resp, status) →
        (Exchange e req t).1 = .error resp) ∧
    (∀ (oa : OAuthService) (code : String) (t : Request.Config → TransportResult),
        t (exchangeAuthorisationCodeConfig oa code) = .ok (resp, status) →
        (ExchangeAuthorisationCode oa code t).1 = .error resp) ∧
    (∀ (oa : OAuthService) (rt : String) (t : Request.Config → TransportResult),
        t (refreshAccessTokenConfig oa rt) = .ok (resp, status) →
        (RefreshAccessToken oa rt t).1 = .error resp) ∧
    (∀ (oa : OAuthService) (cid uri : String) (t : Request.Config → TransportResult),
        t (getAuthorisationCodeConfig cid uri) = .ok (resp, status) →
        (GetAuthorisationCode oa cid uri t).1 = .error resp) := by
  refine ⟨?_, ?_, ?_, ?_, ?_⟩
  · intro e req t herr ht
    simp only [Rate, herr, ht, handleResponse]
    rw [if_pos hs]
  · intro e req t herr ht
    simp only [Exchange, herr, ht, handleResponse]
    rw [if_pos hs]
  · intro oa code t ht
    simp only [ExchangeAuthorisationCode, ht, handleResponse]
    rw [if_pos hs]
  · intro oa rt t ht
    simp only [RefreshAccessToken, ht, handleResponse]
    rw [if_pos hs]
  · intro oa cid uri t ht
    simp only [GetAuthorisationCode, ht, handleResponse]
    rw [if_pos hs]

/-- Witness for C2: all five operations against a transport answering
status 404 with body "oops". -/
theorem C2_non200_raw_body_error_witness :
    (Rate ⟨"tok", false, none⟩ ⟨"USD", "EUR", ⟨1, 0⟩⟩
      (fun _ => .ok ("oops", 404))).1 = .error "oops" ∧
    (Exchange ⟨"tok", false, none⟩ ⟨⟨"a", ⟨1, 0⟩, "USD"⟩, ⟨"b", ⟨0, 0⟩, "EUR"⟩, "r", "id"⟩
      (fun _ => .ok ("oops", 404))).1 = .error "oops" ∧
    (ExchangeAuthorisationCode (NewOAuth "c" ⟨33, 3, 7⟩ "i" false) "code"
      (fun _ => .ok ("oops", 404))).1 = .error "oops" ∧
    (RefreshAccessToken (NewOAuth "c" ⟨33, 3, 7⟩ "i" false) "rt"
      (fun _ => .ok ("oops", 404))).1 = .error "oops" ∧
    (GetAuthorisationCode (NewOAuth "c" ⟨33, 3, 7⟩ "i" false) "cid" "u"
      (fun _ => .ok ("oops", 404))).1 = .error "oops" := by
  have h := C2_non200_raw_body_error "oops" 404 (by decide)
  exact ⟨h.1 _ _ _ rfl rfl, h.2.1 _ _ _ rfl rfl, h.2.2.1 _ _ _ rfl,
    h.2.2.2.1 _ _ _ rfl, h.2.2.2.2 _ _ _ _ rfl⟩

/-- C5: for every request with a positive amount, the amount query
parameter `Rate` adds is the amount rendered by the fixed two-decimal
format, that format renders 1 as "1.00", and its output carries exactly
two digits after the decimal point. -/
theorem C5_rate_amount_two_decimals (req : ExchangeRateReq)
    (h : 0 < req.Amount.mantissa) :
    (rateParams req).lookup "amount" = some (fmtTwoDec req.Amount) ∧
    fmtTwoDec ⟨1, 0⟩ = "1.00" ∧
    ∃ (w r : ℕ), r < 100 ∧ (pad2 r).length = 2 ∧
      fmtTwoDec req.Amount = toString w ++ "." ++ pad2 r :=
  ⟨rfl, rfl, fmtTwoDec_shape req.Amount (le_of_lt h)⟩

/-- Witness for C5 at amount 1. -/
theorem C5_rate_amount_two_decimals_witness :
    (rateParams ⟨"USD", "EUR", ⟨1, 0⟩⟩).lookup "amount"
      = some (fmtTwoDec ⟨1, 0⟩) ∧
    fmtTwoDec ⟨1, 0⟩ = "1.00" ∧
    ∃ (w r : ℕ), r < 100 ∧ (pad2 r).length = 2 ∧
      fmtTwoDec (⟨1, 0⟩ : Dec) = toString w ++ "." ++ pad2 r :=
  C5_rate_amount_two_decimals ⟨"USD", "EUR", ⟨1, 0⟩⟩ (by decide)

/-- C6 (code-bug evaluation): with the `Amount` field left at its zero
value, `Rate` sends `amount=0.00` — the documented default 1.00 is never
applied by the client. -/
theorem C6_zero_amount_sends_zero :
    (rateParams ⟨"USD", "EUR", ⟨0, 0⟩⟩).lookup "amount" = some "0.00" ∧
    (rateConfig ⟨"tok", false, none⟩ ⟨"USD", "EUR", ⟨0, 0⟩⟩).Url =
      "https://b2b.revolut.com/api/1.0/rate?amount=0.00&from=USD&to=EUR" :=
  ⟨rfl, rfl⟩

/-- C3: the generated client assertion is a JWT whose claim set is
exactly iss, aud, sub — with no exp or iat claim — whose header
algorithm is RS256, and whose signature verifies with the public key
corresponding to the held private key. -/
theorem C3_client_assertion_jwt (oa : OAuthService) (p q : ℕ) (hp : p.Prime)
    (hq : q.Prime) (hne : p ≠ q) (hn : oa.privateKey.n = p * q)
    (hed : oa.privateKey.e * oa.privateKey.d ≡ 1 [MOD (p - 1) * (q - 1)]) :
    (generateClientAssertion oa).header.alg = "RS256" ∧
    (generateClientAssertion oa).claims =
      [("aud", "https://revolut.com"), ("iss", oa.issuer), ("sub", oa.clientId)] ∧
    (generateClientAssertion oa).claims.lookup "exp" = none ∧
    (generateClientAssertion oa).claims.lookup "iat" = none ∧
    rsaVerify oa.privateKey.n oa.privateKey.e
      (msgEncode (signingInput (generateClientAssertion oa).header
        (generateClientAssertion oa).claims))
      (generateClientAssertion oa).signature = true := by
  refine ⟨rfl, rfl, rfl, rfl, ?_⟩
  exact rsaVerify_rsaSign oa.privateKey p q hp hq hne hn hed _

/-- Witness for C3 with the toy RSA key 33 = 3 * 11, e = 3, d = 7. -/
theorem C3_client_assertion_jwt_witness :
    (generateClientAssertion (NewOAuth "client-x" ⟨33, 3, 7⟩ "issuer-y" true)).header.alg
      = "RS256" ∧
    (generateClientAssertion (NewOAuth "client-x" ⟨33, 3, 7⟩ "issuer-y" true)).claims =
      [("aud", "https://revolut.com"), ("iss", "issuer-y"), ("sub", "client-x")] ∧
    (generateClientAssertion (NewOAuth "client-x" ⟨33, 3, 7⟩ "issuer-y" true)).claims.lookup
      "exp" = none ∧
    (generateClientAssertion (NewOAuth "client-x" ⟨33, 3, 7⟩ "issuer-y" true)).claims.lookup
      "iat" = none ∧
    rsaVerify 33 3
      (msgEncode (signingInput
        (generateClientAssertion (NewOAuth "client-x" ⟨33, 3, 7⟩ "issuer-y" true)).header
        (generateClientAssertion (NewOAuth "client-x" ⟨33, 3, 7⟩ "issuer-y" true)).claims))
      (generateClientAssertion (NewOAuth "client-x" ⟨33, 3, 7⟩ "issuer-y" true)).signature
      = true :=
  C3_client_assertion_jwt (NewOAuth "client-x" ⟨33, 3, 7⟩ "issuer-y" true) 3 11
    (by decide) (by decide) (by decide) rfl (by decide)

/-- C4: when the transport answers 200 with the stub token body,
`ExchangeAuthorisationCode "code123"` returns the decoded `OAuthResp`
with AccessToken "tok", TokenType "bearer", ExpiresIn 3600,
RefreshToken "ref", and no error. -/
theorem C4_exchange_auth_code_success (oa : OAuthService)
    (t : Request.Config → TransportResult)
    (h : t (exchangeAuthorisationCodeConfig oa "code123") =
      .ok ("\x7b\"access_token\":\"tok\",\"token_type\":\"bearer\",\"expires_in\":3600,\"refresh_token\":\"ref\"\x7d", 200)) :
    (ExchangeAuthorisationCode oa "code123" t).1 =
      .ok ⟨"tok", "bearer", 3600, "ref"⟩ := by
  simp only [ExchangeAuthorisationCode, h]
  rfl

/-- Witness for C4 against a constant stub transport. -/
theorem C4_exchange_auth_code_success_witness :
    (ExchangeAuthorisationCode (NewOAuth "c" ⟨33, 3, 7⟩ "i" false) "code123"
      (fun _ => .ok ("\x7b\"access_token\":\"tok\",\"token_type\":\"bearer\",\"expires_in\":3600,\"refresh_token\":\"ref\"\x7d", 200))).1 =
      .ok ⟨"tok", "bearer", 3600, "ref"⟩ :=
  C4_exchange_auth_code_success (NewOAuth "c" ⟨33, 3, 7⟩ "i" false) _ rfl

/-- C7 (counterexample): a service constructed with the sandbox flag set
still issues its GetAuthorisationCode call with the flag unset, so the
claim that every operation passes the constructed flag is false. -/
theorem C7_get_auth_code_sandbox_counterexample :
    (NewOAuth "c" ⟨33, 3, 7⟩ "i" true).sandbox = true ∧
    ((GetAuthorisationCode (NewOAuth "c" ⟨33, 3, 7⟩ "i" true) "cid" "u"
        (fun _ => .ok ("[]", 200))).2.map Request.Config.Sandbox) = [false] :=
  ⟨rfl, rfl⟩

/-- C7 (amended): Rate, Exchange, ExchangeAuthorisationCode and
RefreshAccessToken pass the service's sandbox flag on every config they
hand to the transport; GetAuthorisationCode always passes false
regardless of the service's flag. -/
theorem C7_sandbox_flag_propagation (e : ExchangeService) (oa : OAuthService)
    (rateReq : ExchangeRateReq) (exReq : ExchangeReq) (code rt cid uri : String)
    (t : Request.Config → TransportResult) :
    ((Rate e rateReq t).2.all fun c => c.Sandbox == e.sandbox) = true ∧
    ((Exchange e exReq t).2.all fun c => c.Sandbox == e.sandbox) = true ∧
    ((ExchangeAuthorisationCode oa code t).2.all fun c => c.Sandbox == oa.sandbox) = true ∧
    ((RefreshAccessToken oa rt t).2.all fun c => c.Sandbox == oa.sandbox) = true ∧
    ((GetAuthorisationCode oa cid uri t).2.all fun c => c.Sandbox == false) = true := by
  refine ⟨?_, ?_, ?_, ?_, ?_⟩
  · cases h : e.err <;> simp [Rate, h, rateConfig]
  · cases h : e.err <;> simp [Exchange, h, exchangeConfig]
  · simp [ExchangeAuthorisationCode, exchangeAuthorisationCodeConfig]
  · simp [RefreshAccessToken, refreshAccessTokenConfig]
  · simp [GetAuthorisationCode, getAuthorisationCodeConfig]

/-- C8 (code-bug evaluation): the URL built by GetAuthorisationCode
carries client_id as a name=value pair, but concatenates redirectUri
directly after the bare text `redirect_uri` — no `=` — so redirect_uri
is not sent as a query parameter pair. -/
theorem C8_redirect_uri_not_a_pair :
    (getAuthorisationCodeConfig "myClient" "https://cb.example/x").Url =
      "https://business.revolut.com/app-confirm?client_id=myClient&redirect_urihttps://cb.example/x" ∧
    strHasSub "client_id=myClient"
      ((getAuthorisationCodeConfig "myClient" "https://cb.example/x").Url) = true ∧
    strHasSub "redirect_uri="
      ((getAuthorisationCodeConfig "myClient" "https://cb.example/x").Url) = false :=
  ⟨rfl, by decide, by decide⟩

/-- C9: RefreshAccessToken builds the same request as
ExchangeAuthorisationCode — method, URL, token, sandbox, content type,
client_id, assertion type, fresh assertion — except that grant_type is
"refresh_token" and a refresh_token form field replaces the code field;
and both process the transport result identically. -/
theorem C9_refresh_mirrors_exchange (oa : OAuthService) (rt code : String) :
    refreshAccessTokenConfig oa rt =
      { exchangeAuthorisationCodeConfig oa code with
          Body := .form
            [("grant_type", grant_type_refresh_token),
             ("refresh_token", rt),
             ("client_id", oa.clientId),
             ("client_assertion_type", clientAssertionType),
             ("client_assertion", serializeJWT (generateClientAssertion oa))] } ∧
    (refreshAccessTokenConfig oa rt).Body.formLookup "refresh_token" = some rt ∧
    (refreshAccessTokenConfig oa rt).Body.formLookup "code" = none ∧
    (refreshAccessTokenConfig oa rt).Body.formLookup "grant_type"
      = some grant_type_refresh_token ∧
    (exchangeAuthorisationCodeConfig oa code).Body.formLookup "code" = some code ∧
    (exchangeAuthorisationCodeConfig oa code).Body.formLookup "grant_type"
      = some grant_type_authorization_code ∧
    ∀ t t' : Request.Config → TransportResult,
      t (refreshAccessTokenConfig oa rt) = t' (exchangeAuthorisationCodeConfig oa code) →
      (RefreshAccessToken oa rt t).1 = (ExchangeAuthorisationCode oa code t').1 := by
  refine ⟨rfl, rfl, rfl, rfl, rfl, rfl, ?_⟩
  intro t t' h
  simp only [RefreshAccessToken, ExchangeAuthorisationCode, h]

/-- Witness for C9: with equal transport answers the two operations
produce the same result. -/
theorem C9_refresh_mirrors_exchange_witness :
    (RefreshAccessToken (NewOAuth "c" ⟨33, 3, 7⟩ "i" false) "rtok"
        (fun _ => .ok ("\x7b\x7d", 200))).1 =
      (ExchangeAuthorisationCode (NewOAuth "c" ⟨33, 3, 7⟩ "i" false) "code0"
        (fun _ => .ok ("\x7b\x7d", 200))).1 :=
  (C9_refresh_mirrors_exchange (NewOAuth "c" ⟨33, 3, 7⟩ "i" false) "rtok"
    "code0").2.2.2.2.2.2 _ _ rfl

/-- C10: a zero amount on either side of an exchange order is omitted
from the marshalled JSON object entirely (omitempty) — the object then
carries only account_id and currency, indistinguishable from an
unspecified amount — and the body Exchange posts is exactly this
marshalling of the order request. -/
theorem C10_omitempty_zero_amount (ea : ExchangeAmount) (h : ea.Amount.mantissa = 0) :
    encodeExchangeAmount ea =
      .obj [("account_id", .str ea.AccountId), ("currency", .str ea.Currency)] ∧
    (encodeExchangeAmount ea).lookupField "amount" = none ∧
    ∀ (e : ExchangeService) (req : ExchangeReq),
      (exchangeConfig e req).Body = .json (encodeExchangeReq req) ∧
      (encodeExchangeReq req).lookupField "from" = some (encodeExchangeAmount req.From) ∧
      (encodeExchangeReq req).lookupField "to" = some (encodeExchangeAmount req.To) := by
  have h1 : encodeExchangeAmount ea =
      .obj [("account_id", .str ea.AccountId), ("currency", .str ea.Currency)] := by
    simp [encodeExchangeAmount, h]
  refine ⟨h1, ?_, fun e req => ⟨rfl, rfl, rfl⟩⟩
  rw [h1]
  rfl

/-- Witness for C10 at a concrete zero-amount side. -/
theorem C10_omitempty_zero_amount_witness :
    encodeExchangeAmount ⟨"acc", ⟨0, 0⟩, "USD"⟩ =
      .obj [("account_id", .str "acc"), ("currency", .str "USD")] ∧
    (encodeExchangeAmount ⟨"acc", ⟨0, 0⟩, "USD"⟩).lookupField "amount" = none :=
  ⟨(C10_omitempty_zero_amount ⟨"acc", ⟨0, 0⟩, "USD"⟩ rfl).1,
   (C10_omitempty_zero_amount ⟨"acc", ⟨0, 0⟩, "USD"⟩ rfl).2.1⟩
